import Mathlib

/-!
Shallow embedding of the drive-timer trip tracking engine.

The repository has two source variants of the same React component:
`src/src/App.jsx` (referred to below as v0) and `src/unnamed/part_000`
(referred to below as v1, the richer variant with history lists and units).
State updates performed through React setters (`setDistance`,
`setRequiredSpeed`, ...) are modelled as explicit state passing over an
`AppState` record; asynchronous callbacks and timers are modelled as an
explicit event-loop over a `Config` record with a list of pending tasks.
Times are rationals (seconds, or milliseconds where the source compares
`Date.getTime()` values); distances and speeds are rationals.
-/

namespace DriveTimer

/-- A latitude/longitude pair (degrees). -/
structure Coord where
  lat : ℚ
  lon : ℚ
deriving DecidableEq, Repr

/-- One route returned by the OSRM routing response: `distance` in metres and
the GeoJSON `geometry.coordinates`, a list of `[lon, lat]` pairs. -/
structure OsrmRoute where
  distanceMeters : ℚ
  geometry : List (ℚ × ℚ)
deriving DecidableEq, Repr

/-- An entry of the recent/saved destination lists:
`{ name, coords, id: Date.now() }` in the source. -/
structure RecentItem where
  name : String
  coords : Coord
  id : ℕ
deriving DecidableEq, Repr

/-- The component state relevant to the engine: the React `useState` slots
of `App` (both variants; v0 simply has no recent list). -/
structure AppState where
  isActive : Bool
  destination : String
  currentPos : Coord
  destCoords : Option Coord
  routePolyline : List (ℚ × ℚ)
  distance : ℚ
  requiredSpeed : ℚ
  timeLeft : ℚ
  nextRefresh : ℚ
  error : Option String
  recentDestinations : List RecentItem
deriving DecidableEq, Repr

/-- Embeds `getRouteData(start, end)` from both variants (the bodies are
identical). The routing response is `none` when `fetch`/`res.json()` threw
or the parsed object had no `routes` field, and `some routes` otherwise.
On a usable response the first route sets `distance` (metres / 1000) and
`routePolyline` (GeoJSON pairs swapped to `[lat, lon]`) and its distance in
km is returned; every failure path returns 0 without touching the state. -/
def getRouteData (s : AppState) (resp : Option (List OsrmRoute)) :
    AppState × ℚ :=
  match resp with
  | none => (s, 0)
  | some [] => (s, 0)
  | some (route :: _) =>
    let d := route.distanceMeters / 1000
    let poly := route.geometry.map (fun c => (c.2, c.1))
    ({ s with distance := d, routePolyline := poly }, d)

/-- Embeds the inline speed computation of the refresh cycle in v1
(`if (remainingSeconds > 0 && dist > 0) dist / (remainingSeconds / 3600)
else 0`), the SpeedCalculator of the spec. -/
def compute (d r : ℚ) : ℚ :=
  if 0 < r ∧ 0 < d then d / (r / 3600) else 0

/-- Embeds the interval table of `refresh` (identical in both variants):
`let next = 30; if (r <= 60) next = 1; else if (r <= 120) next = 3;
else if (r <= 300) next = 5;`. -/
def nextInterval (r : ℚ) : ℚ :=
  if r ≤ 60 then 1
  else if r ≤ 120 then 3
  else if r ≤ 300 then 5
  else 30

/-- Embeds the 12-hour to 24-hour conversion inside `calculateTargetTime`
(both variants): `if (ampm === PM && hours < 12) hours += 12;` then
`if (ampm === AM && hours === 12) hours = 0;`, applied sequentially to
the mutable `hours`. -/
def to24Hour (hours : ℕ) (isPM : Bool) : ℕ :=
  let h1 := if isPM = true ∧ hours < 12 then hours + 12 else hours
  if isPM = false ∧ h1 = 12 then 0 else h1

/-- Embeds `calculateTargetTime` (same logic in both variants; v0 compares
the Date objects, v1 compares `getTime()` values — both are millisecond
comparisons). `dayStart` is the epoch millisecond of local midnight of the
current day and `tod` the milliseconds of the day already elapsed, so now
is `dayStart + tod`; `target.setHours(h, m, s, 0)` yields
`dayStart + timeOfDayMs`, and `target.setDate(target.getDate() + 1)` adds
one day whenever the target is at or before now. -/
def calculateTargetTime (dayStart tod : ℤ) (hh mm ss : ℕ) (isPM : Bool) :
    ℤ :=
  let now := dayStart + tod
  let timeOfDayMs : ℤ :=
    ((to24Hour hh isPM : ℤ) * 3600 + (mm : ℤ) * 60 + (ss : ℤ)) * 1000
  let target := dayStart + timeOfDayMs
  if target ≤ now then target + 86400000 else target

/-- Embeds `addToRecent(name, coords)` of v1: builds
`{ name, coords, id: Date.now() }`, removes entries with a duplicate name,
prepends the new item, and keeps the top 5 via `slice(0, 5)`. The current
list and the `Date.now()` value are passed explicitly. -/
def addToRecent (recent : List RecentItem) (name : String) (coords : Coord)
    (idNow : ℕ) : List RecentItem :=
  let newItem : RecentItem := ⟨name, coords, idNow⟩
  let filtered := recent.filter (fun i => i.name ≠ name)
  (newItem :: filtered).take 5

/-- The initial `useState` values of the component relevant to the engine
(both variants): inactive, current position defaulted to Los Angeles
(34.0522, -118.2437), no destination, empty polyline, zero distance, speed,
time left and next-refresh, no error, empty recent list. -/
def initialAppState : AppState :=
  { isActive := false
    destination := ""
    currentPos := ⟨(340522 : ℚ) / 10000, -(1182437 : ℚ) / 10000⟩
    destCoords := none
    routePolyline := []
    distance := 0
    requiredSpeed := 0
    timeLeft := 0
    nextRefresh := 0
    error := none
    recentDestinations := [] }

/-- Embeds the success callback of the geolocation request issued inside
`refresh` in v1: store the sampled position, run the awaited
`getRouteData`, then publish `dist / (remainingSeconds / 3600)` when both
the remaining time and the distance are positive, and publish 0 otherwise
(the explicit else branch). `remainingSeconds` is
`(arrivalTarget.getTime() - now.getTime()) / 1000` evaluated once the route
fetch has completed; the branching is exactly `compute`. -/
def geoCallback (s : AppState) (pos : Coord)
    (resp : Option (List OsrmRoute)) (remainingSeconds : ℚ) : AppState :=
  let s1 := { s with currentPos := pos }
  let sd := getRouteData s1 resp
  { sd.1 with requiredSpeed := compute sd.2 remainingSeconds }

/-- Embeds the success callback of the geolocation request inside `refresh`
in v0: store the position, run the awaited `getRouteData`, and publish
`dist / (remaining / 3600)` only when remaining > 0 — with no else branch,
so the previous speed survives only when the remaining time is not
positive. -/
def geoCallbackV0 (s : AppState) (pos : Coord)
    (resp : Option (List OsrmRoute)) (remainingSeconds : ℚ) : AppState :=
  let s1 := { s with currentPos := pos }
  let sd := getRouteData s1 resp
  if 0 < remainingSeconds then
    { sd.1 with requiredSpeed := sd.2 / (remainingSeconds / 3600) }
  else sd.1

/-- The data a pending geolocation request will eventually deliver: the
sampled position and the routing response of the `getRouteData` call the
callback then awaits. -/
structure PendingGeo where
  pos : Coord
  resp : Option (List OsrmRoute)
deriving DecidableEq, Repr

/-- The runtime configuration of one v1 trip: the component state, the
arrival target (absolute seconds), whether the countdown `setInterval` is
armed, the absolute fire time of the pending `setTimeout(refresh, ...)`
when one is armed, the in-flight geolocation requests in FIFO order (the
code never cancels one once issued), and how many times a countdown tick
has triggered `handleStop`. -/
structure Config where
  app : AppState
  target : ℚ
  countdownOn : Bool
  refreshTimer : Option ℚ
  pendingGeo : List PendingGeo
  expiryFires : ℕ
deriving DecidableEq, Repr

/-- Embeds `handleStop` (identical in both variants): `setIsActive(false)`,
`clearTimeout(refreshTimer.current)`,
`clearInterval(countdownTimer.current)`. In-flight geolocation requests are
untouched — the code has no way to cancel them. -/
def handleStop (c : Config) : Config :=
  { c with app := { c.app with isActive := false },
           refreshTimer := none,
           countdownOn := false }

/-- Embeds the synchronous body of `refresh` (identical scheduling logic in
both variants), run at absolute time `now`: issue the geolocation request
(whose eventual data `geo` the environment supplies), measure
`remaining = (arrivalTarget - now) / 1000` immediately — without waiting
for the callback — publish the chosen interval via `setNextRefresh`, and
arm `setTimeout(refresh, next * 1000)`. -/
def refreshBody (c : Config) (now : ℚ) (geo : PendingGeo) : Config :=
  let remaining := c.target - now
  let next := nextInterval remaining
  { c with app := { c.app with nextRefresh := next },
           pendingGeo := c.pendingGeo ++ [geo],
           refreshTimer := some (now + next) }

/-- Embeds `startTracking` as far as the scheduling layer is concerned:
arm the countdown `setInterval`, then call `refresh()` immediately at the
current instant. -/
def startTracking (c : Config) (now : ℚ) (geo : PendingGeo) : Config :=
  refreshBody { c with countdownOn := true } now geo

/-- Embeds one firing of the countdown `setInterval` callback at absolute
time `now` (identical in both variants): recompute
`diff = max(0, (arrivalTarget - now))`, publish it via `setTimeLeft`, and
call `handleStop` when it is 0. Expiry-triggered stops are counted in
`expiryFires`; once the interval has been cleared no tick runs. -/
def countdownTick (c : Config) (now : ℚ) : Config :=
  if c.countdownOn then
    let diff := max 0 (c.target - now)
    let c1 := { c with app := { c.app with timeLeft := diff } }
    if diff ≤ 0 then
      { handleStop c1 with expiryFires := c1.expiryFires + 1 }
    else c1
  else c

/-- An occurrence on the single-threaded event loop during one trip: the
armed refresh timeout firing (at its scheduled time, with the data its
geolocation request will deliver), the oldest in-flight geolocation
callback resolving at `now` together with its awaited route fetch, a
countdown tick at `now`, or the user pressing STOP. -/
inductive Event where
  | fireRefresh (geo : PendingGeo)
  | resolveGeo (now : ℚ)
  | tick (now : ℚ)
  | stopPress (now : ℚ)
deriving DecidableEq, Repr

/-- Decides whether an event is the user pressing STOP. -/
def isStopPress : Event → Bool
  | .stopPress _ => true
  | _ => false

/-- Decides whether an event is a countdown tick at or after the target. -/
def isExpiringTick (target : ℚ) : Event → Bool
  | .tick now => target ≤ now
  | _ => false

/-- One step of the event loop of a v1 trip: a refresh timeout fires only
while armed (and at its armed time), a geolocation callback resolves
whenever its request is still in flight — `handleStop` never removes it —
and a countdown tick runs only while the interval is armed. -/
def step (c : Config) (e : Event) : Config :=
  match e with
  | .fireRefresh geo =>
    match c.refreshTimer with
    | some t => refreshBody c t geo
    | none => c
  | .resolveGeo now =>
    match c.pendingGeo with
    | [] => c
    | g :: rest =>
      { c with pendingGeo := rest,
               app := geoCallback c.app g.pos g.resp (c.target - now) }
  | .tick now => countdownTick c now
  | .stopPress _ => handleStop c

/-- Run a whole event sequence through the loop. -/
def run (c : Config) (es : List Event) : Config := es.foldl step c

/-- Embeds the destination-resolution opening of `handleStart` (both
variants): use `destCoords` when already set, otherwise the first candidate
of the limit-1 geocoding search (`geocode` is `none` when that search
returned an empty array, which makes `handleStart` throw
"Address not found."). -/
def resolveDest (s : AppState) (geocode : Option Coord) :
    Option (AppState × Coord) :=
  match s.destCoords with
  | some d => some (s, d)
  | none =>
    match geocode with
    | some d => some ({ s with destCoords := some d }, d)
    | none => none

/-- Embeds `handleStart` of v0: clear the error, resolve the destination,
await the initial `getRouteData`, and throw "Could not calculate route."
when the resolved distance is 0 — the catch block stores the message and
`setIsActive(true)` is never reached. Only a positive initial distance
activates the trip. -/
def handleStart_v0 (s : AppState) (geocode : Option Coord)
    (resp : Option (List OsrmRoute)) : AppState :=
  let s0 := { s with error := none }
  match resolveDest s0 geocode with
  | none => { s0 with error := some "Address not found." }
  | some (s1, _finalDest) =>
    let sd := getRouteData s1 resp
    if sd.2 = 0 then
      { sd.1 with error := some "Could not calculate route." }
    else { sd.1 with isActive := true }

/-- Embeds `handleStart` of v1: clear the error, resolve the destination,
add it to the recent list (with `idNow` the `Date.now()` of the new entry),
await the initial `getRouteData` — a 0 distance is explicitly allowed —
publish `timeLeft = max(0, target - now)`, publish the initial required
speed only when both the time difference and the distance are positive,
and activate unconditionally. The already-computed arrival target and the
current instant are passed as absolute seconds. -/
def handleStart_v1 (s : AppState) (geocode : Option Coord)
    (resp : Option (List OsrmRoute)) (target now : ℚ) (idNow : ℕ) :
    AppState :=
  let s0 := { s with error := none }
  match resolveDest s0 geocode with
  | none => { s0 with error := some "Address not found." }
  | some (s1, finalDest) =>
    let newRecent :=
      addToRecent s1.recentDestinations s1.destination finalDest idNow
    let s2 := { s1 with recentDestinations := newRecent }
    let sd := getRouteData s2 resp
    let diff := max 0 (target - now)
    let s3 := { sd.1 with timeLeft := diff }
    let s4 :=
      if 0 < diff ∧ 0 < sd.2 then
        { s3 with requiredSpeed := sd.2 / (diff / 3600) }
      else s3
    { s4 with isActive := true }

/-- A concrete in-flight geolocation sample used in the scenarios below:
the driver is at (35, -118) and the route fetch the callback awaits
succeeds with a 5000 m route. -/
def demoGeo : PendingGeo := ⟨⟨35, -118⟩, some [⟨5000, []⟩]⟩

/-- A concrete mid-trip component state: active, showing 20 km and
50 km/h. -/
def demoBaseApp : AppState :=
  { initialAppState with isActive := true, distance := 20,
                         requiredSpeed := 50 }

/-- A concrete trip whose tracking started at t = 100 s with arrival target
t = 1000 s: the countdown interval is armed and the first refresh cycle has
just issued its geolocation request. -/
def demoActive : Config :=
  startTracking
    { app := demoBaseApp, target := 1000, countdownOn := false,
      refreshTimer := none, pendingGeo := [], expiryFires := 0 }
    100 demoGeo

/-- A concrete refresh cycle that starts at t = 699 s (301 s before the
t = 1000 s arrival target) and whose geolocation and route work is still in
flight when the next cycle is armed. -/
def demoCycle : Config :=
  startTracking
    { app := demoBaseApp, target := 1000, countdownOn := false,
      refreshTimer := none, pendingGeo := [], expiryFires := 0 }
    699 demoGeo

end DriveTimer

open DriveTimer

/-- C4: the speed computation returns 0 whenever the remaining time or the
distance is nonpositive, otherwise returns exactly d / (r / 3600), and is
never negative. -/
theorem C4_speed_compute (d r : ℚ) :
    ((r ≤ 0 ∨ d ≤ 0) → compute d r = 0) ∧
    (0 < r → 0 < d → compute d r = d / (r / 3600)) ∧
    0 ≤ compute d r := by
  unfold compute
  refine ⟨?_, ?_, ?_⟩
  · rintro (hr | hd)
    · rw [if_neg]; rintro ⟨h1, _⟩; exact absurd h1 (not_lt.mpr hr)
    · rw [if_neg]; rintro ⟨_, h2⟩; exact absurd h2 (not_lt.mpr hd)
  · intro hr hd; rw [if_pos ⟨hr, hd⟩]
  · by_cases h : 0 < r ∧ 0 < d
    · rw [if_pos h]
      exact le_of_lt (div_pos h.2 (div_pos h.1 (by norm_num)))
    · rw [if_neg h]

/-- C4 witness: the computation evaluated at d = 20 km, r = 3600 s gives
20 km/h, at r = 0 gives 0, and is nonnegative there. -/
theorem C4_speed_compute_witness :
    compute 20 3600 = 20 / (3600 / 3600) ∧ compute 20 0 = 0 ∧
    0 ≤ compute 20 3600 :=
  ⟨(C4_speed_compute 20 3600).2.1 (by norm_num) (by norm_num),
   (C4_speed_compute 20 0).1 (Or.inl le_rfl),
   (C4_speed_compute 20 3600).2.2⟩

/-- C7: the next refresh interval follows the threshold table, tightest
threshold first, with inclusive boundaries: r ≤ 60 gives 1 s,
60 < r ≤ 120 gives 3 s, 120 < r ≤ 300 gives 5 s, r > 300 gives 30 s. -/
theorem C7_interval_table (r : ℚ) :
    (r ≤ 60 → nextInterval r = 1) ∧
    (60 < r → r ≤ 120 → nextInterval r = 3) ∧
    (120 < r → r ≤ 300 → nextInterval r = 5) ∧
    (300 < r → nextInterval r = 30) := by
  unfold nextInterval
  refine ⟨fun h => if_pos h, fun h1 h2 => ?_, fun h1 h2 => ?_, fun h => ?_⟩
  · rw [if_neg (not_le.mpr h1), if_pos h2]
  · rw [if_neg (not_le.mpr (by linarith : (60:ℚ) < r)),
        if_neg (not_le.mpr h1), if_pos h2]
  · rw [if_neg (not_le.mpr (by linarith : (60:ℚ) < r)),
        if_neg (not_le.mpr (by linarith : (120:ℚ) < r)),
        if_neg (not_le.mpr h)]

/-- C7 witness: the table evaluated on the boundaries 60, 120, 300 and just
above 300. -/
theorem C7_interval_table_witness :
    nextInterval 60 = 1 ∧ nextInterval 120 = 3 ∧ nextInterval 300 = 5 ∧
    nextInterval 301 = 30 :=
  ⟨(C7_interval_table 60).1 le_rfl,
   (C7_interval_table 120).2.1 (by norm_num) le_rfl,
   (C7_interval_table 300).2.2.1 (by norm_num) le_rfl,
   (C7_interval_table 301).2.2.2 (by norm_num)⟩

/-- Helper: for a valid 12-hour input (1 ≤ hh ≤ 12), the 24-hour conversion
stays below 24. -/
theorem to24Hour_lt_24 (hh : ℕ) (isPM : Bool) (h1 : 1 ≤ hh)
    (h2 : hh ≤ 12) : to24Hour hh isPM < 24 := by
  cases isPM <;> simp [to24Hour] <;> split_ifs <;> omega

/-- C5: for every current instant (dayStart + tod, with tod inside the day)
and every valid arrival request (1 ≤ hh ≤ 12, mm < 60, ss < 60, AM or PM),
the computed arrival target is strictly after the current instant; and when
the requested time-of-day on the current date is at or before now, exactly
one day (86400000 ms) is added, giving the next occurrence of that
time-of-day. -/
theorem C5_target_strictly_future (dayStart tod : ℤ) (hh mm ss : ℕ)
    (isPM : Bool) (htod0 : 0 ≤ tod) (htod : tod < 86400000)
    (hh1 : 1 ≤ hh) (hh2 : hh ≤ 12) (hmm : mm < 60) (hss : ss < 60) :
    dayStart + tod < calculateTargetTime dayStart tod hh mm ss isPM ∧
    (dayStart + ((to24Hour hh isPM : ℤ) * 3600 + (mm : ℤ) * 60 + (ss : ℤ))
        * 1000 ≤ dayStart + tod →
      calculateTargetTime dayStart tod hh mm ss isPM =
        dayStart + ((to24Hour hh isPM : ℤ) * 3600 + (mm : ℤ) * 60 +
          (ss : ℤ)) * 1000 + 86400000) := by
  have h24 : (to24Hour hh isPM : ℤ) ≤ 23 := by
    exact_mod_cast Nat.lt_succ_iff.mp (to24Hour_lt_24 hh isPM hh1 hh2)
  have h24' : (0 : ℤ) ≤ (to24Hour hh isPM : ℤ) := Int.natCast_nonneg _
  have hmm' : (mm : ℤ) ≤ 59 := by exact_mod_cast Nat.lt_succ_iff.mp hmm
  have hmm0 : (0 : ℤ) ≤ (mm : ℤ) := Int.natCast_nonneg _
  have hss' : (ss : ℤ) ≤ 59 := by exact_mod_cast Nat.lt_succ_iff.mp hss
  have hss0 : (0 : ℤ) ≤ (ss : ℤ) := Int.natCast_nonneg _
  simp only [calculateTargetTime]
  constructor
  · split_ifs with h
    · linarith
    · linarith [not_le.mp h]
  · intro h
    rw [if_pos h]

/-- C5 witness: the spec example at a concrete instant — current time
23:50:00 (tod = 85800000 ms after midnight), requested arrival 12:05:00 AM:
the target is the next day at 00:05:00 (86700000 ms after the current
midnight of the day), strictly in the future. -/
theorem C5_target_strictly_future_witness :
    (0 : ℤ) + 85800000 <
      calculateTargetTime 0 85800000 12 5 0 false ∧
    calculateTargetTime 0 85800000 12 5 0 false = 86700000 :=
  ⟨(C5_target_strictly_future 0 85800000 12 5 0 false (by norm_num)
      (by norm_num) (by norm_num) (by norm_num) (by norm_num)
      (by norm_num)).1,
   by decide⟩

/-- C9: the recent-destination list update keeps at most 5 entries, puts the
newest entry first, preserves name-deduplication, and on the concrete
6-entry sequence A, B, A, C, D, E starting from the empty list yields
exactly the 5 names E, D, C, A, B — A appearing once, at the position of
its latest addition. -/
theorem C9_recent_destinations :
    (∀ (l : List RecentItem) (n : String) (c : Coord) (i : ℕ),
      (addToRecent l n c i).length ≤ 5 ∧
      (addToRecent l n c i).head? = some ⟨n, c, i⟩ ∧
      ((l.map RecentItem.name).Nodup →
        ((addToRecent l n c i).map RecentItem.name).Nodup)) ∧
    (let c : Coord := ⟨0, 0⟩
     let run := [("A", 1), ("B", 2), ("A", 3), ("C", 4), ("D", 5), ("E", 6)]
     let final := run.foldl (fun acc p => addToRecent acc p.1 c p.2) []
     final.map RecentItem.name = ["E", "D", "C", "A", "B"] ∧
       final.length = 5 ∧ (final.map RecentItem.name).count "A" = 1) := by
  constructor
  · intro l n c i
    refine ⟨?_, ?_, ?_⟩
    · simp [addToRecent]
    · simp [addToRecent]
    · intro hnd
      have hsub : List.Sublist
          ((l.filter (fun j => j.name ≠ n)).map RecentItem.name)
          (l.map RecentItem.name) :=
        List.Sublist.map RecentItem.name (List.filter_sublist l)
      have hfil : ((l.filter (fun j => j.name ≠ n)).map
          RecentItem.name).Nodup := List.Nodup.sublist hsub hnd
      have hnotin : n ∉ (l.filter (fun j => j.name ≠ n)).map
          RecentItem.name := by
        intro hmem
        rcases List.mem_map.mp hmem with ⟨j, hj, hjn⟩
        rcases List.mem_filter.mp hj with ⟨_, hne⟩
        exact (of_decide_eq_true hne) hjn
      have hcons : (((⟨n, c, i⟩ : RecentItem) ::
          l.filter (fun j => j.name ≠ n)).map RecentItem.name).Nodup := by
        simp only [List.map_cons, List.nodup_cons]
        exact ⟨hnotin, hfil⟩
      have htake : List.Sublist (addToRecent l n c i)
          ((⟨n, c, i⟩ : RecentItem) :: l.filter (fun j => j.name ≠ n)) := by
        simpa [addToRecent] using
          List.take_sublist 5
            ((⟨n, c, i⟩ : RecentItem) :: l.filter (fun j => j.name ≠ n))
      exact List.Nodup.sublist (List.Sublist.map RecentItem.name htake) hcons
  · decide

/-- C9 witness: the general component applied at the singleton list holding
B, adding A: at most 5 entries, A at the head, and names still without
duplicates. -/
theorem C9_recent_destinations_witness :
    (addToRecent [⟨"B", ⟨0, 0⟩, 2⟩] "A" ⟨0, 0⟩ 3).length ≤ 5 ∧
    (addToRecent [⟨"B", ⟨0, 0⟩, 2⟩] "A" ⟨0, 0⟩ 3).head? =
      some ⟨"A", ⟨0, 0⟩, 3⟩ ∧
    ((addToRecent [⟨"B", ⟨0, 0⟩, 2⟩] "A" ⟨0, 0⟩ 3).map
      RecentItem.name).Nodup :=
  ⟨(C9_recent_destinations.1 [⟨"B", ⟨0, 0⟩, 2⟩] "A" ⟨0, 0⟩ 3).1,
   (C9_recent_destinations.1 [⟨"B", ⟨0, 0⟩, 2⟩] "A" ⟨0, 0⟩ 3).2.1,
   (C9_recent_destinations.1 [⟨"B", ⟨0, 0⟩, 2⟩] "A" ⟨0, 0⟩ 3).2.2
     (by decide)⟩

/-- C10: a failed route fetch (network exception, or a response without a
nonempty routes array) returns 0 and leaves the stored distance and route
polyline — in fact the whole state — unchanged, while a successful response
overwrites them from the first route. -/
theorem C10_route_failure_frame (s : AppState)
    (resp : Option (List OsrmRoute)) :
    ((resp = none ∨ resp = some []) →
      (getRouteData s resp).1.distance = s.distance ∧
      (getRouteData s resp).1.routePolyline = s.routePolyline ∧
      (getRouteData s resp).1 = s ∧ (getRouteData s resp).2 = 0) ∧
    (∀ route rest, resp = some (route :: rest) →
      (getRouteData s resp).1 =
        { s with distance := route.distanceMeters / 1000,
                 routePolyline := route.geometry.map (fun c => (c.2, c.1)) } ∧
      (getRouteData s resp).2 = route.distanceMeters / 1000) := by
  constructor
  · rintro (rfl | rfl) <;> simp [getRouteData]
  · rintro route rest rfl
    simp [getRouteData]

/-- C10 witness: the failure case evaluated at the initial component state
with a network exception: distance and polyline are untouched and 0 is
returned. -/
theorem C10_route_failure_frame_witness :
    (getRouteData initialAppState none).1.distance =
      initialAppState.distance ∧
    (getRouteData initialAppState none).1.routePolyline =
      initialAppState.routePolyline ∧
    (getRouteData initialAppState none).1 = initialAppState ∧
    (getRouteData initialAppState none).2 = 0 :=
  (C10_route_failure_frame initialAppState none).1 (Or.inl rfl)

/-- C2 counterexample: in v0, a start with a resolvable destination whose
initial route resolution fails (distance resolved as 0) does NOT transition
to Active — `handleStart` throws and stores the error
"Could not calculate route.", contradicting the claim at this concrete
input. -/
theorem C2_counterexample :
    (handleStart_v0
      { initialAppState with destination := "A",
                             destCoords := some ⟨341 / 10, -118⟩ }
      none none).isActive = false ∧
    (handleStart_v0
      { initialAppState with destination := "A",
                             destCoords := some ⟨341 / 10, -118⟩ }
      none none).error = some "Could not calculate route." := by
  constructor <;> rfl

/-- C2 amended: a failed initial route resolution is non-fatal only in the
part_000 variant (v1), which activates the trip with distance and required
speed still 0 and no error; in the src/App.jsx variant (v0) it is fatal —
the trip is not activated and the error "Could not calculate route." is
stored. -/
theorem C2_start_route_failure (s : AppState) (d : Coord)
    (geocode : Option Coord) (resp : Option (List OsrmRoute))
    (target now : ℚ) (idNow : ℕ)
    (hact : s.isActive = false) (hdest : s.destCoords = some d)
    (hdist : s.distance = 0) (hspeed : s.requiredSpeed = 0)
    (hfail : resp = none ∨ resp = some []) :
    (handleStart_v1 s geocode resp target now idNow).isActive = true ∧
    (handleStart_v1 s geocode resp target now idNow).distance = 0 ∧
    (handleStart_v1 s geocode resp target now idNow).requiredSpeed = 0 ∧
    (handleStart_v1 s geocode resp target now idNow).error = none ∧
    (handleStart_v0 s geocode resp).isActive = false ∧
    (handleStart_v0 s geocode resp).error =
      some "Could not calculate route." := by
  rcases hfail with rfl | rfl <;>
    simp [handleStart_v1, handleStart_v0, resolveDest, getRouteData,
          hact, hdest, hdist, hspeed]

/-- C2 witness: the amended statement evaluated at a concrete fresh state
with a resolved destination and a network failure of the initial route
fetch. -/
theorem C2_start_route_failure_witness :
    (handleStart_v1
      { initialAppState with destination := "A",
                             destCoords := some ⟨341 / 10, -118⟩ }
      none none 100 0 1).isActive = true ∧
    (handleStart_v1
      { initialAppState with destination := "A",
                             destCoords := some ⟨341 / 10, -118⟩ }
      none none 100 0 1).distance = 0 ∧
    (handleStart_v1
      { initialAppState with destination := "A",
                             destCoords := some ⟨341 / 10, -118⟩ }
      none none 100 0 1).requiredSpeed = 0 ∧
    (handleStart_v1
      { initialAppState with destination := "A",
                             destCoords := some ⟨341 / 10, -118⟩ }
      none none 100 0 1).error = none ∧
    (handleStart_v0
      { initialAppState with destination := "A",
                             destCoords := some ⟨341 / 10, -118⟩ }
      none none).isActive = false ∧
    (handleStart_v0
      { initialAppState with destination := "A",
                             destCoords := some ⟨341 / 10, -118⟩ }
      none none).error = some "Could not calculate route." :=
  C2_start_route_failure
    { initialAppState with destination := "A",
                           destCoords := some ⟨341 / 10, -118⟩ }
    ⟨341 / 10, -118⟩ none none 100 0 1 rfl rfl rfl rfl (Or.inl rfl)

/-- C3 counterexample: a refresh cycle whose route resolution fails does
overwrite the displayed required speed. At a concrete active state showing
50 km/h, the geolocation callback with a failed route fetch publishes 0 in
both variants (remaining time 100 s), instead of holding 50. -/
theorem C3_counterexample :
    AppState.requiredSpeed
      { initialAppState with isActive := true, requiredSpeed := 50 } = 50 ∧
    (geoCallback
      { initialAppState with isActive := true, requiredSpeed := 50 }
      ⟨35, -118⟩ none 100).requiredSpeed = 0 ∧
    (geoCallbackV0
      { initialAppState with isActive := true, requiredSpeed := 50 }
      ⟨35, -118⟩ none 100).requiredSpeed = 0 ∧
    (geoCallback
      { initialAppState with isActive := true, requiredSpeed := 50 }
      ⟨35, -118⟩ none 100).requiredSpeed ≠ 50 := by
  refine ⟨rfl, rfl, ?_, by decide⟩
  simp [geoCallbackV0, getRouteData]

/-- C3 amended: a refresh cycle whose route resolution fails (network
exception or empty routes) overwrites the displayed required speed with 0
rather than holding it: v1 publishes 0 unconditionally through its explicit
else branch, and v0 publishes 0/(r/3600) = 0 whenever the remaining time is
positive, holding the previous value only when the remaining time is not
positive. -/
theorem C3_route_failure_zeroes_speed (s : AppState) (pos : Coord)
    (resp : Option (List OsrmRoute)) (r : ℚ)
    (hfail : resp = none ∨ resp = some []) :
    (geoCallback s pos resp r).requiredSpeed = 0 ∧
    (0 < r → (geoCallbackV0 s pos resp r).requiredSpeed = 0) ∧
    (r ≤ 0 → (geoCallbackV0 s pos resp r).requiredSpeed =
      s.requiredSpeed) := by
  rcases hfail with rfl | rfl <;>
    refine ⟨?_, fun hr => ?_, fun hr => ?_⟩
  · simp [geoCallback, getRouteData, compute]
  · simp [geoCallbackV0, getRouteData, hr]
  · simp [geoCallbackV0, getRouteData, not_lt.mpr hr]
  · simp [geoCallback, getRouteData, compute]
  · simp [geoCallbackV0, getRouteData, hr]
  · simp [geoCallbackV0, getRouteData, not_lt.mpr hr]

/-- C3 witness: the amended statement evaluated at the initial state with a
network failure — remaining 100 s gives a published 0 in both variants, and
a nonpositive remaining time (-5 s) holds the previous value in v0. -/
theorem C3_route_failure_zeroes_speed_witness :
    (geoCallback initialAppState ⟨35, -118⟩ none 100).requiredSpeed = 0 ∧
    (geoCallbackV0 initialAppState ⟨35, -118⟩ none 100).requiredSpeed
      = 0 ∧
    (geoCallbackV0 initialAppState ⟨35, -118⟩ none (-5)).requiredSpeed =
      initialAppState.requiredSpeed :=
  ⟨(C3_route_failure_zeroes_speed initialAppState ⟨35, -118⟩ none 100
      (Or.inl rfl)).1,
   (C3_route_failure_zeroes_speed initialAppState ⟨35, -118⟩ none 100
      (Or.inl rfl)).2.1 (by norm_num),
   (C3_route_failure_zeroes_speed initialAppState ⟨35, -118⟩ none (-5)
      (Or.inl rfl)).2.2 (by norm_num)⟩

/-- C1: evaluation of the code at the failing scenario. The trip is stopped
at t = 100 s while a geolocation request is still in flight
(`handleStop` deactivates the session and clears both timers but cannot
cancel the request); when the callback resolves at t = 101 s it still
publishes a new position (35, -118), a new distance (5 km) and a new
required speed (18000/899 km/h) into the inactive session, because the
callback in `refresh` has no liveness guard. -/
theorem C1_inflight_publish_after_stop :
    (step demoActive (Event.stopPress 100)).app.isActive = false ∧
    (step demoActive (Event.stopPress 100)).refreshTimer = none ∧
    (step demoActive (Event.stopPress 100)).countdownOn = false ∧
    (step demoActive (Event.stopPress 100)).pendingGeo = [demoGeo] ∧
    (step (step demoActive (Event.stopPress 100))
      (Event.resolveGeo 101)).app.isActive = false ∧
    (step (step demoActive (Event.stopPress 100))
      (Event.resolveGeo 101)).app.requiredSpeed = 18000 / 899 ∧
    (step demoActive (Event.stopPress 100)).app.requiredSpeed = 50 ∧
    (step (step demoActive (Event.stopPress 100))
        (Event.resolveGeo 101)).app.requiredSpeed ≠
      (step demoActive (Event.stopPress 100)).app.requiredSpeed ∧
    (step (step demoActive (Event.stopPress 100))
      (Event.resolveGeo 101)).app.currentPos = ⟨35, -118⟩ ∧
    (step (step demoActive (Event.stopPress 100))
        (Event.resolveGeo 101)).app.currentPos ≠
      (step demoActive (Event.stopPress 100)).app.currentPos ∧
    (step (step demoActive (Event.stopPress 100))
      (Event.resolveGeo 101)).app.distance = 5 ∧
    (step (step demoActive (Event.stopPress 100))
        (Event.resolveGeo 101)).app.distance ≠
      (step demoActive (Event.stopPress 100)).app.distance := by
  norm_num [demoActive, demoBaseApp, demoGeo, initialAppState,
    startTracking, refreshBody, handleStop, step, geoCallback,
    getRouteData, compute, nextInterval]

/-- C6 counterexample: the interval for the next cycle is NOT computed from
the remaining time at the completion of the asynchronous work of the cycle.
In
the cycle starting at t = 699 s (301 s remaining) the next refresh is armed
immediately with 30 s (timer at t = 729 s) while the geolocation request is
still pending; when the position/route work completes at t = 701 s (299 s
remaining — table row 5 s) the armed interval stays 30 s ≠ 5 s. -/
theorem C6_counterexample :
    demoCycle.app.nextRefresh = 30 ∧
    demoCycle.refreshTimer = some 729 ∧
    demoCycle.pendingGeo = [demoGeo] ∧
    (step demoCycle (Event.resolveGeo 701)).app.nextRefresh = 30 ∧
    (step demoCycle (Event.resolveGeo 701)).refreshTimer = some 729 ∧
    nextInterval (1000 - 701) = 5 ∧
    demoCycle.app.nextRefresh ≠ nextInterval (1000 - 701) := by
  norm_num [demoCycle, demoBaseApp, demoGeo, initialAppState,
    startTracking, refreshBody, step, geoCallback, getRouteData,
    compute, nextInterval]

/-- C6 amended: the remaining time used to pick the next interval is
measured at the moment of rescheduling, but that moment is the synchronous
start of the cycle: `refresh` arms the next timeout right after issuing the
geolocation request, before the position sample, route resolution
and speed computation have completed. -/
theorem C6_reschedule_at_cycle_start (c : Config) (geo : PendingGeo)
    (t : ℚ) (h : c.refreshTimer = some t) :
    (step c (Event.fireRefresh geo)).app.nextRefresh =
      nextInterval (c.target - t) ∧
    (step c (Event.fireRefresh geo)).refreshTimer =
      some (t + nextInterval (c.target - t)) ∧
    (step c (Event.fireRefresh geo)).pendingGeo =
      c.pendingGeo ++ [geo] := by
  simp [step, h, refreshBody]

/-- C6 witness: the amended statement evaluated on the concrete cycle armed
at t = 729 s toward the t = 1000 s target (271 s remaining, table row
5 s). -/
theorem C6_reschedule_at_cycle_start_witness :
    (step demoCycle (Event.fireRefresh demoGeo)).app.nextRefresh =
      nextInterval (demoCycle.target - 729) ∧
    (step demoCycle (Event.fireRefresh demoGeo)).refreshTimer =
      some (729 + nextInterval (demoCycle.target - 729)) ∧
    (step demoCycle (Event.fireRefresh demoGeo)).pendingGeo =
      demoCycle.pendingGeo ++ [demoGeo] :=
  C6_reschedule_at_cycle_start demoCycle demoGeo 729
    (by norm_num [demoCycle, demoBaseApp, startTracking, refreshBody,
      nextInterval])

/-- Helper: `getRouteData` never touches the displayed remaining time. -/
theorem getRouteData_timeLeft (s : AppState)
    (resp : Option (List OsrmRoute)) :
    (getRouteData s resp).1.timeLeft = s.timeLeft := by
  cases resp with
  | none => rfl
  | some l => cases l with
    | nil => rfl
    | cons r rs => rfl

/-- Helper: the geolocation callback never touches the displayed remaining
time. -/
theorem geoCallback_timeLeft (s : AppState) (pos : Coord)
    (resp : Option (List OsrmRoute)) (rem : ℚ) :
    (geoCallback s pos resp rem).timeLeft = s.timeLeft := by
  simp [geoCallback, getRouteData_timeLeft]

/-- Helper: no event of the loop changes the arrival target. -/
theorem step_target (c : Config) (e : Event) :
    (step c e).target = c.target := by
  cases e with
  | fireRefresh geo =>
    cases hr : c.refreshTimer with
    | none => simp [step, hr]
    | some t => simp [step, hr, refreshBody]
  | resolveGeo now =>
    cases hp : c.pendingGeo with
    | nil => simp [step, hp]
    | cons g rest => simp [step, hp]
  | tick now =>
    simp only [step, countdownTick]
    split_ifs <;> simp [handleStop]
  | stopPress now => simp [step, handleStop]

/-- Helper: one loop step keeps the displayed remaining time
nonnegative. -/
theorem step_timeLeft_nonneg (c : Config) (e : Event)
    (h : 0 ≤ c.app.timeLeft) : 0 ≤ (step c e).app.timeLeft := by
  cases e with
  | fireRefresh geo =>
    cases hr : c.refreshTimer with
    | none => simpa [step, hr] using h
    | some t => simpa [step, hr, refreshBody] using h
  | resolveGeo now =>
    cases hp : c.pendingGeo with
    | nil => simpa [step, hp] using h
    | cons g rest => simpa [step, hp, geoCallback_timeLeft] using h
  | tick now =>
    simp only [step, countdownTick]
    split_ifs <;> simp [handleStop, le_max_left, h]
  | stopPress now => simpa [step, handleStop] using h

/-- Helper: the remaining time stays nonnegative over any event
sequence. -/
theorem run_timeLeft_nonneg (es : List Event) (c : Config)
    (h : 0 ≤ c.app.timeLeft) : 0 ≤ (run c es).app.timeLeft := by
  induction es generalizing c with
  | nil => simpa [run] using h
  | cons e es ih =>
    simpa [run, List.foldl_cons] using
      ih (step c e) (step_timeLeft_nonneg c e h)

/-- Helper: one loop step preserves the invariant that at most one
expiry-triggered stop has fired, and none while the countdown is still
armed. -/
theorem step_expiry_inv (c : Config) (e : Event)
    (h : c.expiryFires ≤ 1 ∧ (c.countdownOn = true → c.expiryFires = 0)) :
    (step c e).expiryFires ≤ 1 ∧
      ((step c e).countdownOn = true → (step c e).expiryFires = 0) := by
  cases e with
  | fireRefresh geo =>
    cases hr : c.refreshTimer with
    | none => simpa [step, hr] using h
    | some t => simpa [step, hr, refreshBody] using h
  | resolveGeo now =>
    cases hp : c.pendingGeo with
    | nil => simpa [step, hp] using h
    | cons g rest => simpa [step, hp] using h
  | tick now =>
    simp only [step, countdownTick]
    split_ifs with hon hd
    · have : c.expiryFires = 0 := h.2 hon
      simp [handleStop, this]
    · exact ⟨h.1, fun hc => h.2 hon⟩
    · exact h
  | stopPress now =>
    refine ⟨h.1, fun hc => ?_⟩
    simp [step, handleStop] at hc

/-- Helper: the invariant of step_expiry_inv holds at the end of any event
sequence started with it. -/
theorem run_expiry_inv (es : List Event) (c : Config)
    (h : c.expiryFires ≤ 1 ∧ (c.countdownOn = true → c.expiryFires = 0)) :
    (run c es).expiryFires ≤ 1 := by
  induction es generalizing c with
  | nil => simpa [run] using h.1
  | cons e es ih =>
    simpa [run, List.foldl_cons] using
      ih (step c e) (step_expiry_inv c e h)

/-- Helper: once the countdown has been cleared by its own expiry (one fire
recorded), every further event keeps it cleared with exactly one fire. -/
theorem step_after_expiry (c : Config) (e : Event)
    (h : c.countdownOn = false ∧ c.expiryFires = 1) :
    (step c e).countdownOn = false ∧ (step c e).expiryFires = 1 := by
  cases e with
  | fireRefresh geo =>
    cases hr : c.refreshTimer with
    | none => simpa [step, hr] using h
    | some t => simpa [step, hr, refreshBody] using h
  | resolveGeo now =>
    cases hp : c.pendingGeo with
    | nil => simpa [step, hp] using h
    | cons g rest => simpa [step, hp] using h
  | tick now => simp [step, countdownTick, h.1, h.2]
  | stopPress now => simp [step, handleStop, h.2]

/-- Helper: the post-expiry state persists to the end of any event
sequence. -/
theorem run_after_expiry (es : List Event) (c : Config)
    (h : c.countdownOn = false ∧ c.expiryFires = 1) :
    (run c es).countdownOn = false ∧ (run c es).expiryFires = 1 := by
  induction es generalizing c with
  | nil => simpa [run] using h
  | cons e es ih =>
    simpa [run, List.foldl_cons] using
      ih (step c e) (step_after_expiry c e h)

/-- Helper: while no STOP press occurs, the loop is always either still
counting with no expiry fired, or stopped by exactly one expiry. -/
theorem step_nostop_alternatives (c : Config) (e : Event)
    (hns : isStopPress e = false)
    (h : (c.countdownOn = true ∧ c.expiryFires = 0) ∨
         (c.countdownOn = false ∧ c.expiryFires = 1)) :
    ((step c e).countdownOn = true ∧ (step c e).expiryFires = 0) ∨
    ((step c e).countdownOn = false ∧ (step c e).expiryFires = 1) := by
  rcases h with h | h
  · cases e with
    | fireRefresh geo =>
      cases hr : c.refreshTimer with
      | none => exact Or.inl (by simpa [step, hr] using h)
      | some t => exact Or.inl (by simpa [step, hr, refreshBody] using h)
    | resolveGeo now =>
      cases hp : c.pendingGeo with
      | nil => exact Or.inl (by simpa [step, hp] using h)
      | cons g rest => exact Or.inl (by simpa [step, hp] using h)
    | tick now =>
      simp only [step, countdownTick, h.1, if_true]
      split_ifs with hd
      · exact Or.inr (by simp [handleStop, h.2])
      · exact Or.inl (by simpa using h.2)
    | stopPress now => simp [isStopPress] at hns
  · exact Or.inr (step_after_expiry c e h)

/-- Helper: an expiring tick (at or after the target) moves either
alternative into the stopped-with-one-fire state. -/
theorem expiring_tick_stops (c : Config) (t : ℚ) (ht : c.target ≤ t)
    (h : (c.countdownOn = true ∧ c.expiryFires = 0) ∨
         (c.countdownOn = false ∧ c.expiryFires = 1)) :
    (step c (Event.tick t)).countdownOn = false ∧
      (step c (Event.tick t)).expiryFires = 1 := by
  rcases h with h | h
  · have hmax : max 0 (c.target - t) = 0 :=
      max_eq_left (by linarith)
    simp [step, countdownTick, h.1, hmax, handleStop, h.2]
  · exact step_after_expiry c (Event.tick t) h

/-- Helper: over any stop-free event sequence that contains a tick at or
after the target, the countdown ends cleared with exactly one expiry
fire. -/
theorem run_nostop_expiry (es : List Event) (c : Config)
    (h : (c.countdownOn = true ∧ c.expiryFires = 0) ∨
         (c.countdownOn = false ∧ c.expiryFires = 1))
    (hns : ∀ e ∈ es, isStopPress e = false)
    (hex : ∃ e ∈ es, isExpiringTick c.target e = true) :
    (run c es).countdownOn = false ∧ (run c es).expiryFires = 1 := by
  induction es generalizing c with
  | nil => simp at hex
  | cons e es ih =>
    have hns1 : isStopPress e = false := hns e (List.mem_cons_self e es)
    have hns' : ∀ x ∈ es, isStopPress x = false :=
      fun x hx => hns x (List.mem_cons_of_mem e hx)
    rcases hex with ⟨e', he', hexp⟩
    rcases List.mem_cons.mp he' with rfl | hmem
    · cases e' with
      | tick t =>
        have ht : c.target ≤ t := by
          simpa [isExpiringTick] using hexp
        have hD2 := expiring_tick_stops c t ht h
        simpa [run, List.foldl_cons] using
          run_after_expiry es (step c (Event.tick t)) hD2
      | fireRefresh geo => simp [isExpiringTick] at hexp
      | resolveGeo now => simp [isExpiringTick] at hexp
      | stopPress now => simp [isExpiringTick] at hexp
    · have hQ' := step_nostop_alternatives c e hns1 h
      have hex' : ∃ x ∈ es, isExpiringTick (step c e).target x = true :=
        ⟨e', hmem, by rw [step_target]; exact hexp⟩
      simpa [run, List.foldl_cons] using ih (step c e) hQ' hns' hex'

/-- C8: the countdown never reports a negative remaining time — each tick
publishes exactly max(0, target - now), recomputed from absolute time —
and the expiry action fires exactly once per start: over any event
sequence it fires at most once, and over any stop-free sequence containing
a tick at or past the target it fires exactly once, on the tick where the
clamped value reaches 0 (which also clears the countdown). -/
theorem C8_countdown_clock (c : Config) (es : List Event) (now : ℚ)
    (hon : c.countdownOn = true) (h0 : c.expiryFires = 0)
    (htl : 0 ≤ c.app.timeLeft) :
    (step c (Event.tick now)).app.timeLeft = max 0 (c.target - now) ∧
    0 ≤ (run c es).app.timeLeft ∧
    (run c es).expiryFires ≤ 1 ∧
    ((∀ e ∈ es, isStopPress e = false) →
      (∃ e ∈ es, isExpiringTick c.target e = true) →
      (run c es).expiryFires = 1) := by
  refine ⟨?_, run_timeLeft_nonneg es c htl, ?_, fun hns hex => ?_⟩
  · simp only [step, countdownTick, hon, if_true]
    split_ifs <;> simp [handleStop]
  · exact run_expiry_inv es c ⟨by omega, fun _ => h0⟩
  · exact (run_nostop_expiry es c (Or.inl ⟨hon, h0⟩) hns hex).2

/-- C8 witness: the concrete trip started at t = 100 s with target
t = 1000 s — a tick at t = 500 s publishes max(0, 500) = 500 s, and the
single-event sequence holding a tick at t = 1000 s keeps the remaining
time nonnegative and fires the expiry stop exactly once. -/
theorem C8_countdown_clock_witness :
    (step demoActive (Event.tick 500)).app.timeLeft =
      max 0 (demoActive.target - 500) ∧
    0 ≤ (run demoActive [Event.tick 1000]).app.timeLeft ∧
    (run demoActive [Event.tick 1000]).expiryFires ≤ 1 ∧
    (run demoActive [Event.tick 1000]).expiryFires = 1 := by
  have h := C8_countdown_clock demoActive [Event.tick 1000] 500
    (by norm_num [demoActive, startTracking, refreshBody])
    (by norm_num [demoActive, startTracking, refreshBody])
    (by norm_num [demoActive, demoBaseApp, initialAppState,
      startTracking, refreshBody])
  exact ⟨h.1, h.2.1, h.2.2.1,
    h.2.2.2 (by simp [isStopPress])
      ⟨Event.tick 1000, List.mem_cons_self _ _,
        by norm_num [isExpiringTick, demoActive, startTracking,
          refreshBody]⟩⟩
